import Mathlib

/-
Verification of the schema-mapping and dynamic query-translation layer of
the uavcrew-mcp-server repository (src/mcp_server/data_adapter.py and
src/mcp_server/tools/database.py).

Modelling conventions:
  - Python dicts are modelled as insertion-ordered association lists
    (`Dict α = List (String × α)`); keys are unique in every dict the
    program builds, and `Dict.get` returns the first binding, matching
    `dict.get`.
  - A Python string value that may be `None` or `""` (both falsy, both
    skipped by every truthiness test in the source) is modelled as a plain
    `String`, with `""` standing for absent/None.  Config keys whose
    presence matters for dict truthiness are `Option`-typed.
  - A raised Python exception is modelled as `Except.error msg`; a normal
    return as `Except.ok`.  The YAML config value of an entity is modelled
    by `EntityConfig` with `Option` fields; an entity bound to `None` or
    `{}` behaves exactly like the all-`none` record under every truthiness
    test the source performs, and is modelled so.
  - SQL execution is modelled by `runQuery` over the structured form of the
    statement the builder assembles; `SelectQuery.render` produces exactly
    the text `build_select_query` concatenates, so the textual and the
    structured views agree by construction.  Opaque per-entity base-filter
    predicates (`filter:` in the YAML) are given semantics by an oracle
    `Store.rawSem`; the equality fragments the code itself generates
    (`col = :param`) are evaluated concretely.  A reference to a column the
    physical row does not have, or to an unbound parameter, is a database
    error (`none`), as it is in SQL.
-/

deriving instance DecidableEq for Except

namespace UAV

/-- Scalar values that flow between caller, parameters and database rows. -/
inductive Value where
  | str (s : String)
  | int (n : Int)
  | bool (b : Bool)
  | null
deriving DecidableEq, Repr

/-- A Python dict with string keys, in insertion order. -/
abbrev Dict (α : Type) := List (String × α)

/-- First binding for a key, like Python `dict.get(k)`. -/
def Dict.get {α : Type} : Dict α → String → Option α
  | [], _ => none
  | (k, v) :: rest, key => if k = key then some v else Dict.get rest key

/-- A single-quote character, used in the messages the source formats. -/
def sq : String := (Char.ofNat 39).toString

/-- One entity's block in data_mapping.yaml.  `none` models an absent key;
`some ""` models a key bound to an empty/None value (falsy but present). -/
structure EntityConfig where
  source_table : Option String
  columns : Option (Dict String)
  filter : Option String
deriving DecidableEq, Repr

/-- Python truthiness of the config dict: non-empty iff some key is present. -/
def EntityConfig.truthy (c : EntityConfig) : Bool :=
  c.source_table.isSome || c.columns.isSome || c.filter.isSome

/-- The `entities:` mapping of data_mapping.yaml. -/
abbrev Mapping := Dict EntityConfig

/-- DataAdapter.get_entity_config: `self.mapping.get("entities", {}).get(entity_name)`. -/
def get_entity_config (m : Mapping) (entity_name : String) : Option EntityConfig :=
  Dict.get m entity_name

/-- A WHERE fragment as the source generates it: either the entity's opaque
base filter string, or a conjunction of `col = :param` equality atoms. -/
inductive Cond where
  | raw (s : String)
  | eqs (cs : List (String × String))
deriving DecidableEq, Repr

/-- Render a fragment to the exact text the Python f-strings build. -/
def Cond.render : Cond → String
  | .raw s => s
  | .eqs cs => String.intercalate " AND " (cs.map fun cp => s!"{cp.1} = :{cp.2}")

/-- Structured form of the SELECT statement `build_select_query` assembles.
`selectCols` holds `(physical, logical)` pairs emitted as `physical AS logical`;
`limit` is present exactly when the Python `if limit:` test passes. -/
structure SelectQuery where
  selectCols : List (String × String)
  table : String
  whereParts : List Cond
  limit : Option Int
deriving DecidableEq, Repr

/-- The LIMIT suffix: `f" LIMIT {limit}"` when present, else nothing. -/
def limitClause : Option Int → String
  | some n => s!" LIMIT {n}"
  | none => ""

/-- The statement text up to (and excluding) the LIMIT suffix. -/
def renderBase (q : SelectQuery) : String :=
  let select_clause := String.intercalate ", " (q.selectCols.map fun pa => s!"{pa.1} AS {pa.2}")
  let where_sql :=
    if q.whereParts = [] then "1=1"
    else String.intercalate " AND " (q.whereParts.map fun c => "(" ++ c.render ++ ")")
  s!"SELECT {select_clause} FROM {q.table} WHERE {where_sql}"

/-- Full statement text, exactly as the Python concatenation produces it. -/
def SelectQuery.render (q : SelectQuery) : String :=
  renderBase q ++ limitClause q.limit

/-- The underlying relational store: named tables of physical rows, plus an
oracle giving the semantics of opaque base-filter predicate strings. -/
structure Store where
  tables : Dict (List (Dict Value))
  rawSem : String → Dict Value → Option Bool

/-- Evaluate a conjunction of `col = :param` atoms on a physical row; a
missing column or unbound parameter is a database error (`none`). -/
def evalEqs (params row : Dict Value) : List (String × String) → Option Bool
  | [] => some true
  | (col, p) :: rest =>
    match Dict.get row col, Dict.get params p, evalEqs params row rest with
    | some v, some pv, some b => some (decide (v = pv) && b)
    | _, _, _ => none

/-- Evaluate one WHERE fragment on a physical row. -/
def evalCond (store : Store) (params row : Dict Value) : Cond → Option Bool
  | .raw s => store.rawSem s row
  | .eqs cs => evalEqs params row cs

/-- Evaluate the conjunction of all WHERE fragments (empty list is `1=1`). -/
def evalWhere (store : Store) (params row : Dict Value) : List Cond → Option Bool
  | [] => some true
  | c :: rest =>
    match evalCond store params row c, evalWhere store params row rest with
    | some a, some b => some (a && b)
    | _, _ => none

/-- Keep the rows satisfying the WHERE fragments; any evaluation error
aborts the statement. -/
def filterRows (store : Store) (params : Dict Value) (conds : List Cond) :
    List (Dict Value) → Option (List (Dict Value))
  | [] => some []
  | r :: rest =>
    match evalWhere store params r conds, filterRows store params conds rest with
    | some true, some rs => some (r :: rs)
    | some false, some rs => some rs
    | _, _ => none

/-- Build one result row: each `(physical, logical)` select item reads the
physical column and labels the value with the logical alias. -/
def projectRow (cols : List (String × String)) (row : Dict Value) : Option (Dict Value) :=
  match cols with
  | [] => some []
  | (phys, lg) :: rest =>
    match Dict.get row phys, projectRow rest row with
    | some v, some rs => some ((lg, v) :: rs)
    | _, _ => none

/-- Apply `projectRow` to every row. -/
def projectRows (cols : List (String × String)) :
    List (Dict Value) → Option (List (Dict Value))
  | [] => some []
  | r :: rest =>
    match projectRow cols r, projectRows cols rest with
    | some pr, some prs => some (pr :: prs)
    | _, _ => none

/-- Cut the kept rows to the LIMIT when one is present.  (A negative LIMIT
literal is engine-specific in SQL; this model returns no rows for it.  No
claim below depends on that corner: the builder only omits the clause for
limit 0, and negative limits are exercised textually, never executed.) -/
def applyLimit : Option Int → List (Dict Value) → List (Dict Value)
  | some n, l => l.take n.toNat
  | none, l => l

/-- Execute a built statement against the store: look the table up, filter by
the WHERE fragments, apply LIMIT, then build the aliased result rows.  Any
failure models the database exception SQLAlchemy would raise. -/
def runQuery (store : Store) (q : SelectQuery) (params : Dict Value) :
    Except String (List (Dict Value)) :=
  match Dict.get store.tables q.table with
  | none => .error s!"no such table: {q.table}"
  | some rows =>
    match filterRows store params q.whereParts rows with
    | none => .error "SQL predicate evaluation failed"
    | some kept =>
      match projectRows q.selectCols (applyLimit q.limit kept) with
      | none => .error "unknown column in SELECT list"
      | some out => .ok out

/-- DataAdapter.build_select_query, structured form.  Follows the source
line by line: truthiness gates on config, `source_table`, each physical
column, the base filter, and the `if limit:` test. -/
def build_select_struct (m : Mapping) (entity_name : String)
    (where_cond : Option Cond) (where_params : Option (Dict Value))
    (limit : Option Int) : Except String (SelectQuery × Dict Value) :=
  match get_entity_config m entity_name with
  | none => .error s!"No mapping configured for entity: {entity_name}"
  | some config =>
    if ¬ config.truthy then .error s!"No mapping configured for entity: {entity_name}"
    else
      let source_table := config.source_table.getD ""
      if source_table = "" then .error s!"No source_table configured for entity: {entity_name}"
      else
        let columns := config.columns.getD []
        let select_parts := columns.filter fun kv => kv.2 ≠ ""
        if select_parts = [] then .error s!"No columns mapped for entity: {entity_name}"
        else
          let base_filter := config.filter.getD ""
          let where_parts :=
            (if base_filter ≠ "" then [Cond.raw base_filter] else []) ++
            (match where_cond with | some c => [c] | none => [])
          let params := where_params.getD []
          .ok ({ selectCols := select_parts.map fun kv => (kv.2, kv.1),
                 table := source_table,
                 whereParts := where_parts,
                 limit := match limit with
                   | some n => if n ≠ 0 then some n else none
                   | none => none },
               params)

/-- DataAdapter.build_select_query as the source exposes it: the rendered
SQL text together with the bound parameters. -/
def build_select_query (m : Mapping) (entity_name : String)
    (where_cond : Option Cond) (where_params : Option (Dict Value))
    (limit : Option Int) : Except String (String × Dict Value) :=
  match build_select_struct m entity_name where_cond where_params limit with
  | .ok (q, p) => .ok (q.render, p)
  | .error e => .error e

/-- DataAdapter.query_one: single record by ID; `if not config: return None`,
then a bound equality on the physical column backing the logical id column,
built with limit 1 and executed; `fetchone` is the head of the result. -/
def query_one (store : Store) (m : Mapping) (entity_name : String)
    (id_value : String) (id_column : String) :
    Except String (Option (Dict Value)) :=
  match get_entity_config m entity_name with
  | none => .ok none
  | some config =>
    if ¬ config.truthy then .ok none
    else
      match build_select_struct m entity_name
          (some (.eqs [((Dict.get (config.columns.getD []) id_column).getD id_column,
                        "id_value")]))
          (some [("id_value", .str id_value)]) (some 1) with
      | .error e => .error e
      | .ok (q, params) =>
        match runQuery store q params with
        | .error e => .error e
        | .ok rows => .ok rows.head?

/-- DataAdapter.query_many: `if not config: return []`, then build and
execute with the caller's WHERE fragment, parameters and limit. -/
def query_many (store : Store) (m : Mapping) (entity_name : String)
    (where_cond : Option Cond) (where_params : Option (Dict Value))
    (limit : Int) : Except String (List (Dict Value)) :=
  match get_entity_config m entity_name with
  | none => .ok []
  | some config =>
    if ¬ config.truthy then .ok []
    else
      match build_select_struct m entity_name where_cond where_params (some limit) with
      | .error e => .error e
      | .ok (q, params) => runQuery store q params

/-- DataAdapter.is_entity_configured:
`bool(config and config.get("source_table") and config.get("columns"))`. -/
def is_entity_configured (m : Mapping) (entity_name : String) : Bool :=
  match get_entity_config m entity_name with
  | none => false
  | some config =>
    config.truthy && (config.source_table.getD "") ≠ "" && (config.columns.getD []) ≠ []

/-- DataAdapter.get_configured_entities: names whose config has a truthy
`source_table` and a truthy (non-empty) `columns`. -/
def get_configured_entities (m : Mapping) : List String :=
  (m.filter fun nc => (nc.2.source_table.getD "") ≠ "" && (nc.2.columns.getD []) ≠ []).map
    fun nc => nc.1

/-- The static entity-description table in tools/database.py list_entities. -/
def entity_descriptions : Dict String :=
  [("pilots", "Pilot certifications and credentials"),
   ("aircraft", "Aircraft registration and status"),
   ("flights", "Flight logs and telemetry"),
   ("missions", "Mission planning data"),
   ("maintenance_records", "Aircraft maintenance history")]

/-- The static field-description table in tools/database.py describe_entity. -/
def field_descriptions : Dict String :=
  [("id", "Unique identifier"),
   ("name", "Full name"),
   ("certificate_type", "Certificate type (Part 107, Part 61, etc.)"),
   ("certificate_number", "FAA certificate number"),
   ("certificate_expiry", "Certificate expiration date"),
   ("certificate_valid", "Whether certificate is currently valid"),
   ("waivers", "List of waivers held"),
   ("flight_hours_90_days", "Flight hours in last 90 days"),
   ("total_flight_hours", "Total career flight hours"),
   ("registration", "FAA registration number (N-number)"),
   ("make_model", "Aircraft make and model"),
   ("serial_number", "Manufacturer serial number"),
   ("registration_expiry", "Registration expiration date"),
   ("registration_valid", "Whether registration is currently valid"),
   ("last_maintenance_date", "Date of last maintenance"),
   ("hours_since_maintenance", "Flight hours since last maintenance"),
   ("maintenance_interval_hours", "Required maintenance interval"),
   ("battery_cycles", "Battery charge cycles"),
   ("firmware_version", "Current firmware version"),
   ("pilot_id", "Pilot identifier"),
   ("aircraft_id", "Aircraft identifier"),
   ("flight_datetime", "Flight date and time"),
   ("duration_seconds", "Flight duration in seconds"),
   ("max_altitude_ft", "Maximum altitude reached (feet)"),
   ("max_speed_mph", "Maximum speed reached (mph)"),
   ("takeoff_lat", "Takeoff latitude"),
   ("takeoff_lon", "Takeoff longitude"),
   ("flight_id", "Associated flight identifier"),
   ("purpose", "Mission purpose"),
   ("client_name", "Client name"),
   ("location_name", "Location name"),
   ("location_lat", "Location latitude"),
   ("location_lon", "Location longitude"),
   ("airspace_class", "Airspace classification"),
   ("laanc_required", "Whether LAANC authorization required"),
   ("laanc_authorization_id", "LAANC authorization ID"),
   ("planned_altitude_ft", "Planned altitude (feet)"),
   ("planned_duration_min", "Planned duration (minutes)"),
   ("date", "Maintenance date"),
   ("type", "Maintenance type"),
   ("description", "Maintenance description"),
   ("technician", "Technician name"),
   ("hours_at_service", "Aircraft hours at time of service"),
   ("reason", "Reason for maintenance")]

/-- Result shape of list_entities. -/
inductive ListResult where
  | empty (entities : Dict String) (message : String)
  | ok (entities : Dict String)
deriving DecidableEq, Repr

/-- tools/database.py list_entities. -/
def list_entities (m : Mapping) : ListResult :=
  let configured := get_configured_entities m
  let entities := configured.map fun name =>
    (name, (Dict.get entity_descriptions name).getD s!"{name} data")
  if entities = [] then
    .empty [] s!"No entities configured. Run {sq}uavcrew map-data{sq} to set up data mapping."
  else
    .ok entities

/-- Result shape of describe_entity: either the recoverable
`{error, available_entities}` payload, or `{entity, fields, source_table}`. -/
inductive DescribeResult where
  | err (error : String) (available_entities : List String)
  | ok (entity : String) (fields : Dict String) (source_table : Option String)
deriving DecidableEq, Repr

/-- Whether a describe result is the error payload. -/
def DescribeResult.isErr : DescribeResult → Bool
  | .err _ _ => true
  | .ok _ _ _ => false

/-- Python truthiness of `get_entity_config`'s result (None, `{}` and a
non-empty dict). -/
def optTruthy : Option EntityConfig → Bool
  | none => false
  | some c => c.truthy

/-- tools/database.py describe_entity.  The gate is `if not config:` — the
truthiness of the raw config value, not `is_entity_configured`.  It reads
only the mapping, never the store. -/
def describe_entity (m : Mapping) (entity : String) : DescribeResult :=
  match get_entity_config m entity with
  | none => .err s!"Entity {sq}{entity}{sq} not configured" (get_configured_entities m)
  | some config =>
    if ¬ config.truthy then
      .err s!"Entity {sq}{entity}{sq} not configured" (get_configured_entities m)
    else
      let columns := config.columns.getD []
      let fields := columns.map fun kv =>
        (kv.1, (Dict.get field_descriptions kv.1).getD kv.1)
      .ok entity fields config.source_table

/-- Result shape of query_entity: the `{error, available_entities}` payload,
a single record `{data}`, the null-result success `{data: null, message}`,
or the multi-record `{data, count, limit}` payload. -/
inductive QueryResult where
  | notConfigured (error : String) (available_entities : List String)
  | one (data : Dict Value)
  | noneFound (message : String)
  | many (data : List (Dict Value)) (count : Nat) (limit : Int)
deriving DecidableEq, Repr

/-- The field projection of tools/database.py:
`{k: v for k, v in row.items() if k in fields}`. -/
def project (fields : List String) (row : Dict Value) : Dict Value :=
  row.filter fun kv => kv.1 ∈ fields

/-- tools/database.py query_entity.  `Except.error` models a Python
exception escaping the function (the source has no try/except).  The
`filters`/`fields` truthiness tests (`if filters:`, `if fields:`) are empty
checks; the multi-record WHERE fragment interpolates each filter key as a
bare identifier, exactly as the source does. -/
def query_entity (store : Store) (m : Mapping) (entity : String)
    (idv : Option String) (filters : Option (Dict Value))
    (fields : Option (List String)) (limit : Int) :
    Except String QueryResult :=
  if ¬ is_entity_configured m entity then
    .ok (.notConfigured s!"Entity {sq}{entity}{sq} not configured"
          (get_configured_entities m))
  else
    match idv with
    | some idval =>
      match query_one store m entity idval "id" with
      | .error e => .error e
      | .ok result =>
        if result.getD [] ≠ [] then
          let row := result.getD []
          let row := if fields.getD [] ≠ [] then project (fields.getD []) row else row
          .ok (.one row)
        else
          .ok (.noneFound s!"No {entity} found with id {sq}{idval}{sq}")
    | none =>
      let fs := filters.getD []
      let where_cond : Option Cond :=
        if fs ≠ [] then some (.eqs (fs.enum.map fun iv => (iv.2.1, s!"p{iv.1}")))
        else none
      let where_params : Dict Value :=
        if fs ≠ [] then fs.enum.map fun iv => (s!"p{iv.1}", iv.2.2) else []
      match query_many store m entity where_cond (some where_params) limit with
      | .error e => .error e
      | .ok results =>
        let results :=
          if fields.getD [] ≠ [] ∧ results ≠ [] then
            results.map (project (fields.getD []))
          else results
        .ok (.many results results.length limit)

/-- Logical column names of an entity, as configured. -/
def logical_keys (m : Mapping) (entity : String) : List String :=
  match get_entity_config m entity with
  | none => []
  | some c => (c.columns.getD []).map Prod.fst

/-! Concrete fixtures used to evaluate the model at specific inputs. -/

/-- A mapping with one fully configured entity, as in the module docstring of
data_adapter.py: logical `pilots` backed by physical table `operators`. -/
def pilotsMapping : Mapping :=
  [("pilots", ⟨some "operators", some [("id", "operator_id"), ("name", "full_name")], none⟩)]

/-- A store with two physical rows for the `operators` table. -/
def pilotsStore : Store :=
  { tables := [("operators",
      [[("operator_id", Value.str "PLT-001"), ("full_name", Value.str "Ada")],
       [("operator_id", Value.str "PLT-002"), ("full_name", Value.str "Bob")]])],
    rawSem := fun _ _ => some true }

/-- The same physical table with an extra physical column `secret_col` that is
not exposed through the logical mapping. -/
def injectionStore : Store :=
  { tables := [("operators",
      [[("operator_id", Value.str "PLT-001"), ("full_name", Value.str "Ada"),
        ("secret_col", Value.str "x")],
       [("operator_id", Value.str "PLT-002"), ("full_name", Value.str "Bob"),
        ("secret_col", Value.str "y")]])],
    rawSem := fun _ _ => some true }

/-- A store with no tables at all: every execution attempt fails, modelling a
connection/execution failure against the relational store. -/
def emptyStore : Store := { tables := [], rawSem := fun _ _ => some true }

/-- An entity present in the mapping with a source table but no `columns`
key: not configured, yet its config dict is truthy. -/
def partialMapping : Mapping := [("foo", ⟨some "t", none, none⟩)]

/-- An entity whose `columns` mapping is non-empty but whose only physical
column expression is empty: `is_entity_configured` accepts it, the SELECT
builder cannot emit any column for it. -/
def blankColsMapping : Mapping := [("p", ⟨some "t", some [("id", "")], none⟩)]

/-- A store holding an empty table `t`. -/
def blankColsStore : Store := { tables := [("t", [])], rawSem := fun _ _ => some true }

/-- An entity with three logical columns, one of which (`ghost`) has an
empty physical expression. -/
def mixedMapping : Mapping :=
  [("p", ⟨some "t", some [("id", "pid"), ("ghost", ""), ("name", "pname")], none⟩)]

/-- A store with one physical row for mixedMapping's table. -/
def mixedStore : Store :=
  { tables := [("t", [[("pid", Value.str "A"), ("pname", Value.str "N")]])],
    rawSem := fun _ _ => some true }

/-! Shared lemmas about the builder, the executor and projection. -/

/-- Normal form of build_select_struct for a truthy config with a truthy
source_table: the outcome depends only on whether some column has a
non-empty physical expression. -/
theorem build_select_struct_spec (m : Mapping) (entity : String) (c : EntityConfig)
    (wc : Option Cond) (wp : Option (Dict Value)) (lim : Option Int)
    (hc : get_entity_config m entity = some c) (htru : c.truthy = true)
    (hst : (c.source_table.getD "") ≠ "") :
    build_select_struct m entity wc wp lim =
      if ((c.columns.getD []).filter fun kv => kv.2 ≠ "") = [] then
        .error s!"No columns mapped for entity: {entity}"
      else
        .ok ({ selectCols := ((c.columns.getD []).filter fun kv => kv.2 ≠ "").map
                 fun kv => (kv.2, kv.1),
               table := c.source_table.getD "",
               whereParts :=
                 (if (c.filter.getD "") ≠ "" then [Cond.raw (c.filter.getD "")] else []) ++
                 (match wc with | some cd => [cd] | none => []),
               limit := match lim with
                 | some n => if n ≠ 0 then some n else none
                 | none => none },
             wp.getD []) := by
  unfold build_select_struct
  rw [hc]
  simp [htru, hst]

/-- Filtering twice with the same predicate equals filtering once. -/
theorem filter_twice {α : Type} (p : α → Bool) (l : List α) :
    (l.filter p).filter p = l.filter p := by
  induction l with
  | nil => rfl
  | cons a t ih => by_cases h : p a <;> simp [List.filter, h, ih]

/-- The keys surviving a key-membership filter are the original keys that
are members, in their original order. -/
theorem map_fst_filter_mem (row : Dict Value) (fs : List String) :
    (row.filter fun kv => kv.1 ∈ fs).map Prod.fst =
      (row.map Prod.fst).filter fun k => k ∈ fs := by
  induction row with
  | nil => rfl
  | cons a t ih => by_cases h : a.1 ∈ fs <;> simp [h, ih]

/-- With no WHERE fragments (the `1=1` case) every row is kept. -/
theorem filterRows_nil_conds (store : Store) (params : Dict Value)
    (rows : List (Dict Value)) : filterRows store params [] rows = some rows := by
  induction rows with
  | nil => rfl
  | cons r t ih => simp [filterRows, evalWhere, ih]

/-- Successful row projection preserves the number of rows. -/
theorem projectRows_length (cols : List (String × String)) :
    ∀ rows prs, projectRows cols rows = some prs → prs.length = rows.length := by
  intro rows
  induction rows with
  | nil =>
    intro prs h
    simp only [projectRows] at h
    cases h
    rfl
  | cons r t ih =>
    intro prs h
    simp only [projectRows] at h
    split at h
    · rename_i pr prs2 hr hs
      cases h
      simp [ih _ hs]
    · cases h

/-- Successful row projection commutes with taking a prefix. -/
theorem projectRows_take (cols : List (String × String)) :
    ∀ rows prs k, projectRows cols rows = some prs →
      projectRows cols (rows.take k) = some (prs.take k) := by
  intro rows
  induction rows with
  | nil =>
    intro prs k h
    simp only [projectRows] at h
    cases h
    simp [projectRows]
  | cons r t ih =>
    intro prs k h
    simp only [projectRows] at h
    split at h
    · rename_i pr prs2 hr hs
      cases h
      cases k with
      | zero => simp [projectRows]
      | succ k2 => simp [projectRows, hr, ih prs2 k2 hs]
    · cases h

/-- An entity whose resolved config has a truthy source table and non-empty
columns passes the is_entity_configured gate. -/
theorem configured_of_parts (m : Mapping) (entity : String) (c : EntityConfig)
    (hc : get_entity_config m entity = some c)
    (hst : (c.source_table.getD "") ≠ "")
    (hcols : (c.columns.getD []) ≠ []) :
    is_entity_configured m entity = true := by
  have htru : c.truthy = true := by
    unfold EntityConfig.truthy
    cases hso : c.source_table with
    | none => rw [hso] at hst; simp at hst
    | some s => simp
  unfold is_entity_configured
  rw [hc]
  simp [htru, hst, hcols]

/-- A truthy (non-none) source table makes the config dict truthy. -/
theorem truthy_of_source (c : EntityConfig) (tbl : String)
    (hst : c.source_table = some tbl) : c.truthy = true := by
  unfold EntityConfig.truthy
  rw [hst]
  simp

/-- Normal form of query_many with no caller WHERE fragment on an entity
whose config has a real source table, no base filter and at least one
selectable column, over a store that holds the table and whose rows project
cleanly: the result is the projected rows, cut to `limit` when non-zero. -/
theorem query_many_no_filter_spec (store : Store) (m : Mapping) (entity tbl : String)
    (c : EntityConfig) (rows prows : List (Dict Value)) (limit : Int)
    (hc : get_entity_config m entity = some c)
    (hst : c.source_table = some tbl)
    (ht : tbl ≠ "")
    (hfil : c.filter = none)
    (hsel : (c.columns.getD []).filter (fun kv => kv.2 ≠ "") ≠ [])
    (hrows : Dict.get store.tables tbl = some rows)
    (hproj : projectRows (((c.columns.getD []).filter fun kv => kv.2 ≠ "").map
        fun kv => (kv.2, kv.1)) rows = some prows)
    (hlimne : limit ≠ 0) :
    query_many store m entity none (some []) limit = .ok (prows.take limit.toNat) := by
  have htru := truthy_of_source c tbl hst
  have hgetd : c.source_table.getD "" = tbl := by rw [hst]; rfl
  have hst2 : (c.source_table.getD "") ≠ "" := by rw [hgetd]; exact ht
  have hbuild := build_select_struct_spec m entity c none (some []) (some limit) hc htru hst2
  rw [if_neg hsel] at hbuild
  unfold query_many
  rw [hc]
  simp only [htru, not_true, if_true, if_false, ite_false, Bool.not_true,
    not_false_iff, ite_true, hbuild]
  unfold runQuery
  rw [hgetd, hrows]
  simp only [hfil, Option.getD_none, Option.getD_some, ne_eq, not_true_eq_false,
    ite_false, List.nil_append, if_neg hlimne, ite_not]
  rw [filterRows_nil_conds]
  simp only [applyLimit]
  rw [projectRows_take _ rows prows limit.toNat hproj]

/-- A truthy `source_table` string makes the config dict truthy. -/
theorem truthy_of_source_ne (c : EntityConfig)
    (hst : (c.source_table.getD "") ≠ "") : c.truthy = true := by
  unfold EntityConfig.truthy
  cases hso : c.source_table with
  | none => rw [hso] at hst; simp at hst
  | some s => simp

/-- The head of a list, when present, is a member. -/
theorem mem_of_head_opt {α : Type} {l : List α} {a : α}
    (h : l.head? = some a) : a ∈ l := by
  cases l with
  | nil => cases h
  | cons b t =>
    simp only [List.head?_cons, Option.some.injEq] at h
    rw [← h]
    exact List.mem_cons_self b t

/-- The keys of a projected row are the aliases of the select list, in
order. -/
theorem projectRow_keys (cols : List (String × String)) :
    ∀ row r, projectRow cols row = some r → r.map Prod.fst = cols.map Prod.snd := by
  induction cols with
  | nil =>
    intro row r h
    simp only [projectRow] at h
    cases h
    rfl
  | cons pa rest ih =>
    obtain ⟨phys, lg⟩ := pa
    intro row r h
    simp only [projectRow] at h
    split at h
    · rename_i v rs hv hrs
      cases h
      simp [ih row rs hrs]
    · cases h

/-- Every produced result row arises from projecting some physical row. -/
theorem projectRows_mem (cols : List (String × String)) :
    ∀ l out r, projectRows cols l = some out → r ∈ out →
      ∃ src, projectRow cols src = some r := by
  intro l
  induction l with
  | nil =>
    intro out r h hr
    simp only [projectRows] at h
    cases h
    cases hr
  | cons a t ih =>
    intro out r h hr
    simp only [projectRows] at h
    split at h
    · rename_i pr prs hpr hprs
      cases h
      rcases List.mem_cons.mp hr with h1 | h2
      · exact ⟨a, by rw [hpr, h1]⟩
      · exact ih _ r hprs h2
    · cases h

/-- Every row a successful execution returns is keyed by the select list's
aliases, in the select list's order. -/
theorem runQuery_keys (store : Store) (q : SelectQuery) (params : Dict Value)
    (rows : List (Dict Value)) (r : Dict Value)
    (h : runQuery store q params = .ok rows) (hr : r ∈ rows) :
    r.map Prod.fst = q.selectCols.map Prod.snd := by
  unfold runQuery at h
  split at h
  · cases h
  · split at h
    · cases h
    · split at h
      · cases h
      · rename_i out hp
        cases h
        obtain ⟨src, hsrc⟩ := projectRows_mem q.selectCols _ _ r hp hr
        exact projectRow_keys q.selectCols src r hsrc

/-- On every successful build, the select list is exactly the configured
columns with a non-empty physical expression, emitted as
`(physical, logical)` pairs in configuration order. -/
theorem build_ok_selectCols (m : Mapping) (entity : String)
    (wc : Option Cond) (wp : Option (Dict Value)) (lim : Option Int)
    (q : SelectQuery) (p : Dict Value)
    (h : build_select_struct m entity wc wp lim = .ok (q, p)) :
    ∃ c, get_entity_config m entity = some c ∧
      q.selectCols = ((c.columns.getD []).filter fun kv => kv.2 ≠ "").map
        fun kv => (kv.2, kv.1) := by
  cases hgc : get_entity_config m entity with
  | none => unfold build_select_struct at h; rw [hgc] at h; cases h
  | some c =>
    refine ⟨c, rfl, ?_⟩
    by_cases h1 : c.truthy = true
    case neg => unfold build_select_struct at h; rw [hgc] at h; simp [h1] at h
    case pos =>
      by_cases h2 : c.source_table.getD "" = ""
      · unfold build_select_struct at h; rw [hgc] at h; simp [h1, h2] at h
      · rw [build_select_struct_spec m entity c wc wp lim hgc h1 h2] at h
        by_cases h3 : (c.columns.getD []).filter (fun kv => kv.2 ≠ "") = []
        · rw [if_pos h3] at h; cases h
        · rw [if_neg h3] at h
          have h4 := Except.ok.inj h
          have hq : _ = q := congrArg Prod.fst h4
          subst hq
          rfl

/-- The aliases of the emitted select list are logical column names. -/
theorem selectCols_snd_subset (c : EntityConfig) :
    ((((c.columns.getD []).filter fun kv => kv.2 ≠ "").map
        fun kv => (kv.2, kv.1)).map Prod.snd) ⊆
      (c.columns.getD []).map Prod.fst := by
  intro k hk
  simp only [List.map_map, List.mem_map, Function.comp] at hk
  obtain ⟨kv, hkv, hEq⟩ := hk
  exact hEq ▸ List.mem_map_of_mem Prod.fst (List.mem_of_mem_filter hkv)

/-- In an association list with no duplicate keys, a key determines its
value. -/
theorem assoc_nodup_val_eq {α : Type} :
    ∀ (l : List (String × α)) (k : String) (a b : α),
      (l.map Prod.fst).Nodup → (k, a) ∈ l → (k, b) ∈ l → a = b := by
  intro l
  induction l with
  | nil => intro k a b _ ha _; cases ha
  | cons p t ih =>
    intro k a b hnd ha hb
    simp only [List.map_cons, List.nodup_cons] at hnd
    rcases List.mem_cons.mp ha with h1 | h1 <;> rcases List.mem_cons.mp hb with h2 | h2
    · have h3 := h1.trans h2.symm
      injection h3
    · exfalso
      apply hnd.1
      have hk : p.1 = k := by rw [← h1]
      rw [hk]
      exact List.mem_map_of_mem Prod.fst h2
    · exfalso
      apply hnd.1
      have hk : p.1 = k := by rw [← h2]
      rw [hk]
      exact List.mem_map_of_mem Prod.fst h1
    · exact ih k a b hnd.2 h1 h2

/-! Claim theorems. -/

/-- C1: the multi-record path of query_entity takes the caller-supplied
filter key `secret_col`, which is not among the entity's logical columns
`id`/`name`, interpolates it verbatim into the SQL text as a bare
identifier (`(secret_col = :p0)`), executes it against the physical schema,
and returns a success payload — it never rejects the unknown key with a
typed InvalidFilterKey error.  The first conjunct evaluates query_entity at
the failing input; the second shows the exact statement text the builder
produces for the WHERE fragment query_entity passed it. -/
theorem c1_filter_key_interpolated_not_rejected :
    query_entity injectionStore pilotsMapping "pilots" none
        (some [("secret_col", Value.str "x")]) none 100 =
      .ok (.many [[("id", Value.str "PLT-001"), ("name", Value.str "Ada")]] 1 100) ∧
    build_select_query pilotsMapping "pilots"
        (some (.eqs [("secret_col", "p0")])) (some [("p0", Value.str "x")]) (some 100) =
      .ok ("SELECT operator_id AS id, full_name AS name FROM operators WHERE (secret_col = :p0) LIMIT 100",
           [("p0", Value.str "x")]) := by
  exact ⟨by decide, by decide⟩

/-- C2 counterexample: with a configured entity but an unavailable store
(no table to connect to), query_entity lets the execution failure escape as
an exception — modelled as `Except.error` — instead of returning a
structured failure payload.  The source function has no exception handling
at all. -/
theorem c2_counterexample_store_failure_escapes :
    query_entity emptyStore pilotsMapping "pilots" none none none 100 =
      .error "no such table: operators" := by
  decide

/-- C2 (amended): when the entity is not configured, query_entity is total
and store-independent: it returns the structured `{error, available_entities}`
payload for every store, id, filters, fields and limit, without consulting
the store.  (Store/build failures on configured entities, by contrast,
propagate as exceptions — see the counterexample.) -/
theorem c2_unconfigured_always_structured (store : Store) (m : Mapping) (entity : String)
    (idv : Option String) (filters : Option (Dict Value)) (fields : Option (List String))
    (limit : Int) (h : is_entity_configured m entity = false) :
    query_entity store m entity idv filters fields limit =
      .ok (.notConfigured s!"Entity {sq}{entity}{sq} not configured"
            (get_configured_entities m)) := by
  unfold query_entity
  simp [h]

/-- C2 witness: the amended theorem applied at a concrete unconfigured
entity name against a concrete store. -/
theorem c2_unconfigured_always_structured_witness :
    query_entity emptyStore pilotsMapping "widgets" none none none 100 =
      .ok (.notConfigured s!"Entity {sq}widgets{sq} not configured"
            (get_configured_entities pilotsMapping)) :=
  c2_unconfigured_always_structured emptyStore pilotsMapping "widgets" none none none 100
    (by decide)

/-- C3 counterexample: the entity `foo` is present with `source_table` but
without `columns`, hence not configured, yet describe_entity returns the
fields/source_table payload (with an empty fields mapping), not the
`{error, available_entities}` payload: the source gates on `if not config:`
(raw truthiness), not on `is_entity_configured`. -/
theorem c3_counterexample_partial_config_gets_fields_payload :
    is_entity_configured partialMapping "foo" = false ∧
    describe_entity partialMapping "foo" = .ok "foo" [] (some "t") := by
  exact ⟨by decide, by decide⟩

/-- C3 (amended): describe_entity returns the `{error, available_entities}`
payload exactly when the entity is absent from the mapping or its config
value is empty/falsy; an entity present with any non-empty config — even one
missing `source_table` or a non-empty `columns`, hence not configured —
receives the fields/source_table payload. -/
theorem c3_error_payload_iff_config_falsy (m : Mapping) (entity : String) :
    (describe_entity m entity).isErr = true ↔
      optTruthy (get_entity_config m entity) = false := by
  unfold describe_entity optTruthy
  cases h : get_entity_config m entity with
  | none => simp [DescribeResult.isErr]
  | some c => cases hc : c.truthy <;> simp [DescribeResult.isErr, hc]

/-- C4 counterexample: the entity `p` is configured in the source's sense
(`is_entity_configured` holds: truthy source_table, non-empty `columns`),
its table is empty so no row exists for the requested id, yet query_entity
raises (`ValueError: No columns mapped`) instead of returning the
`{data: null, message}` payload, because the only physical column
expression is empty. -/
theorem c4_counterexample_blank_columns_raise :
    is_entity_configured blankColsMapping "p" = true ∧
    query_entity blankColsStore blankColsMapping "p" (some "PLT-999") none none 100 =
      .error "No columns mapped for entity: p" := by
  exact ⟨by decide, by decide⟩

/-- C4 (amended): for a configured entity, whenever the single-record lookup
completes without a database error and finds no row, query_entity returns
the null-result success `{data: null, message: "No <entity> found with id
'<id>'"}` — never an error payload. -/
theorem c4_not_found_is_null_success (store : Store) (m : Mapping) (entity idval : String)
    (filters : Option (Dict Value)) (fields : Option (List String)) (limit : Int)
    (hconf : is_entity_configured m entity = true)
    (hnone : query_one store m entity idval "id" = .ok none) :
    query_entity store m entity (some idval) filters fields limit =
      .ok (.noneFound s!"No {entity} found with id {sq}{idval}{sq}") := by
  unfold query_entity
  simp [hconf, hnone]

/-- C4 witness: the amended theorem at a concrete configured entity and a
concrete absent id, hypotheses discharged by evaluation. -/
theorem c4_not_found_is_null_success_witness :
    query_entity pilotsStore pilotsMapping "pilots" (some "PLT-999") none none 100 =
      .ok (.noneFound s!"No pilots found with id {sq}PLT-999{sq}") :=
  c4_not_found_is_null_success pilotsStore pilotsMapping "pilots" "PLT-999" none none 100
    (by decide) (by decide)

/-- C5 counterexample: the entity pilots holds N = 2 rows, the supplied
limit is 0 < N, yet count = 2 ≠ limit: the builder tests `if limit:`
(Python truthiness), which is falsy for 0, so no LIMIT clause is emitted
and every matching row is returned and counted. -/
theorem c5_counterexample_zero_limit :
    (Dict.get pilotsStore.tables "operators").map List.length = some 2 ∧
    query_entity pilotsStore pilotsMapping "pilots" none none none 0 =
      .ok (.many [[("id", Value.str "PLT-001"), ("name", Value.str "Ada")],
                  [("id", Value.str "PLT-002"), ("name", Value.str "Bob")]] 2 0) := by
  exact ⟨by decide, by decide⟩

/-- C5 (amended): in the multi-record path with empty filters, a healthy
store and a positive limit, query_entity returns `{data, count, limit}`
where count is the length of the returned data (the projected rows cut to
`limit`): with N rows and N ≤ limit, count = N, and with limit < N,
count = limit.  (With limit = 0 no LIMIT clause is emitted and count = N —
see the counterexample.) -/
theorem c5_count_equals_rows_returned (store : Store) (m : Mapping)
    (entity tbl : String) (c : EntityConfig) (rows prows : List (Dict Value))
    (filters : Option (Dict Value)) (limit : Int)
    (hc : get_entity_config m entity = some c)
    (hst : c.source_table = some tbl)
    (ht : tbl ≠ "")
    (hfil : c.filter = none)
    (hsel : (c.columns.getD []).filter (fun kv => kv.2 ≠ "") ≠ [])
    (hrows : Dict.get store.tables tbl = some rows)
    (hproj : projectRows (((c.columns.getD []).filter fun kv => kv.2 ≠ "").map
        fun kv => (kv.2, kv.1)) rows = some prows)
    (hflt : filters.getD [] = [])
    (hlim : 0 < limit) :
    query_entity store m entity none filters none limit =
      .ok (.many (prows.take limit.toNat) ((prows.take limit.toNat).length) limit) ∧
    (rows.length ≤ limit.toNat → (prows.take limit.toNat).length = rows.length) ∧
    (limit.toNat < rows.length → (prows.take limit.toNat).length = limit.toNat) := by
  have hst2 : (c.source_table.getD "") ≠ "" := by rw [hst]; exact ht
  have hcols : (c.columns.getD []) ≠ [] := by
    intro hE
    exact hsel (by simp [hE])
  have hconf := configured_of_parts m entity c hc hst2 hcols
  have hlen := projectRows_length _ rows prows hproj
  have hlimne : limit ≠ 0 := by omega
  have hqm := query_many_no_filter_spec store m entity tbl c rows prows limit
    hc hst ht hfil hsel hrows hproj hlimne
  refine ⟨?_, ?_, ?_⟩
  · unfold query_entity
    simp [hconf, hflt, hqm]
  · intro hN
    rw [List.length_take]
    omega
  · intro hN
    rw [List.length_take]
    omega

/-- C5 witness: the amended theorem at concrete data, N = 2 rows and
limit = 1 < N: one row is returned and count = 1 = limit. -/
theorem c5_count_equals_rows_returned_witness :
    query_entity pilotsStore pilotsMapping "pilots" none none none 1 =
      .ok (.many [[("id", Value.str "PLT-001"), ("name", Value.str "Ada")]] 1 1) :=
  (c5_count_equals_rows_returned pilotsStore pilotsMapping "pilots" "operators"
    ⟨some "operators", some [("id", "operator_id"), ("name", "full_name")], none⟩
    [[("operator_id", Value.str "PLT-001"), ("full_name", Value.str "Ada")],
     [("operator_id", Value.str "PLT-002"), ("full_name", Value.str "Bob")]]
    [[("id", Value.str "PLT-001"), ("name", Value.str "Ada")],
     [("id", Value.str "PLT-002"), ("name", Value.str "Bob")]]
    none 1 (by decide) (by decide) (by decide) (by decide) (by decide) (by decide)
    (by decide) (by decide) (by decide)).1

/-- C6 counterexample: the limit -5 is not a positive integer, yet the
builder appends a LIMIT clause (` LIMIT -5`) to the statement text, because
the source tests `if limit:` — Python truthiness — and every non-zero
integer, negative ones included, is truthy. -/
theorem c6_counterexample_negative_limit_appended :
    build_select_query pilotsMapping "pilots" none none (some (-5)) =
      .ok ("SELECT operator_id AS id, full_name AS name FROM operators WHERE 1=1 LIMIT -5",
           []) := by
  decide

/-- Every successful build carries a structured limit that is present iff
the supplied limit is a non-zero integer. -/
theorem build_ok_limit (m : Mapping) (entity : String)
    (wc : Option Cond) (wp : Option (Dict Value)) (lim : Option Int)
    (q : SelectQuery) (p : Dict Value)
    (h : build_select_struct m entity wc wp lim = .ok (q, p)) :
    q.limit = lim.bind fun n => if n = 0 then none else some n := by
  cases hgc : get_entity_config m entity with
  | none => unfold build_select_struct at h; rw [hgc] at h; cases h
  | some c =>
    by_cases h1 : c.truthy = true
    case neg => unfold build_select_struct at h; rw [hgc] at h; simp [h1] at h
    case pos =>
      by_cases h2 : c.source_table.getD "" = ""
      · unfold build_select_struct at h; rw [hgc] at h; simp [h1, h2] at h
      · rw [build_select_struct_spec m entity c wc wp lim hgc h1 h2] at h
        by_cases h3 : (c.columns.getD []).filter (fun kv => kv.2 ≠ "") = []
        · rw [if_pos h3] at h; cases h
        · rw [if_neg h3] at h
          have h4 := Except.ok.inj h
          have hq : _ = q := congrArg Prod.fst h4
          subst hq
          cases lim with
          | none => rfl
          | some n => by_cases hn : n = 0 <;> simp [hn]

/-- C6 (amended): the rendered statement is the LIMIT-free text followed by
the LIMIT suffix; the suffix is empty exactly when the structured limit is
absent; and on every successful build the structured limit is present iff
the supplied limit is a non-zero integer (absent or zero yields no LIMIT
clause; non-zero values, including negative ones, are appended). -/
theorem c6_limit_clause_iff_nonzero (m : Mapping) (entity : String)
    (wc : Option Cond) (wp : Option (Dict Value)) (lim : Option Int)
    (q : SelectQuery) (p : Dict Value)
    (h : build_select_struct m entity wc wp lim = .ok (q, p)) :
    q.render = renderBase q ++ limitClause q.limit ∧
    limitClause none = "" ∧
    q.limit = lim.bind fun n => if n = 0 then none else some n :=
  ⟨rfl, rfl, build_ok_limit m entity wc wp lim q p h⟩

/-- C6 witness: the amended theorem applied to a concrete successful build
with limit 3. -/
theorem c6_limit_clause_iff_nonzero_witness :
    (⟨[("operator_id", "id"), ("full_name", "name")], "operators", [], some 3⟩ :
        SelectQuery).render =
      renderBase ⟨[("operator_id", "id"), ("full_name", "name")], "operators", [], some 3⟩ ++
        limitClause (some 3) ∧
    limitClause none = "" ∧
    (⟨[("operator_id", "id"), ("full_name", "name")], "operators", [], some 3⟩ :
        SelectQuery).limit = (some (3 : Int)).bind fun n => if n = 0 then none else some n :=
  c6_limit_clause_iff_nonzero pilotsMapping "pilots" none none (some 3)
    ⟨[("operator_id", "id"), ("full_name", "name")], "operators", [], some 3⟩ []
    (by decide)

/-- C7: field projection, as query_entity applies it to each result record,
is idempotent (projecting twice with the same fields equals projecting
once), retains exactly the record's keys that are present in `fields` in
their original order (so an unknown name in `fields` causes no error and
simply contributes no key), and the projected record is a sublist of the
original — no re-ordering of the remaining keys. -/
theorem c7_projection_idempotent_ordered (row : Dict Value) (fs : List String) :
    project fs (project fs row) = project fs row ∧
    (project fs row).map Prod.fst = (row.map Prod.fst).filter (fun k => k ∈ fs) ∧
    List.Sublist (project fs row) row :=
  ⟨filter_twice _ _, map_fst_filter_mem row fs, List.filter_sublist _⟩

/-- C8: for a configured entity, describe_entity returns the fields payload
whose key set is exactly the configured logical column names (in
configuration order), each paired with the static description and falling
back to the field name itself; describe_entity takes no store argument at
all, so the result is independent of table size or content and involves no
database execution. -/
theorem c8_describe_exact_fields (m : Mapping) (entity : String) (c : EntityConfig)
    (hc : get_entity_config m entity = some c)
    (hconf : is_entity_configured m entity = true) :
    ∃ flds, describe_entity m entity = .ok entity flds c.source_table ∧
      flds.map Prod.fst = (c.columns.getD []).map Prod.fst ∧
      ∀ k d, (k, d) ∈ flds → d = (Dict.get field_descriptions k).getD k := by
  have htru : c.truthy = true := by
    unfold is_entity_configured at hconf
    rw [hc] at hconf
    simp only [Bool.and_eq_true] at hconf
    exact hconf.1.1
  refine ⟨(c.columns.getD []).map fun kv =>
    (kv.1, (Dict.get field_descriptions kv.1).getD kv.1), ?_, ?_, ?_⟩
  · unfold describe_entity
    rw [hc]
    simp [htru]
  · simp [List.map_map, Function.comp]
  · intro k d hkd
    simp only [List.mem_map] at hkd
    obtain ⟨kv, hkv, heq⟩ := hkd
    cases heq
    rfl

/-- C8 witness: the theorem applied to the concrete pilots mapping. -/
theorem c8_describe_exact_fields_witness :
    ∃ flds, describe_entity pilotsMapping "pilots" =
        .ok "pilots" flds (some "operators") ∧
      flds.map Prod.fst =
        ([("id", "operator_id"), ("name", "full_name")] : Dict String).map Prod.fst ∧
      ∀ k d, (k, d) ∈ flds → d = (Dict.get field_descriptions k).getD k :=
  c8_describe_exact_fields pilotsMapping "pilots"
    ⟨some "operators", some [("id", "operator_id"), ("name", "full_name")], none⟩
    (by decide) (by decide)

/-- C9: every record produced by query_one or query_many is keyed only by
logical column names of the entity (keys of the configured `columns`
mapping); no physical column name or raw SQL fragment appears as a key of a
returned record. -/
theorem c9_record_keys_logical (store : Store) (m : Mapping) (entity : String) :
    (∀ idval idcol row, query_one store m entity idval idcol = .ok (some row) →
      row.map Prod.fst ⊆ logical_keys m entity) ∧
    (∀ wc wp lim rows r, query_many store m entity wc wp lim = .ok rows → r ∈ rows →
      r.map Prod.fst ⊆ logical_keys m entity) := by
  constructor
  · intro idval idcol row h
    unfold query_one at h
    split at h
    · cases h
    · rename_i c hgc
      split at h
      · cases h
      · split at h
        · cases h
        · rename_i q params hb
          split at h
          · cases h
          · rename_i rows2 hr2
            have hhead : rows2.head? = some row := Except.ok.inj h
            have hmem := mem_of_head_opt hhead
            have hkeys := runQuery_keys store q params rows2 row hr2 hmem
            obtain ⟨c2, hc2, hsel⟩ := build_ok_selectCols m entity _ _ _ q params hb
            have hcc : c = c2 := Option.some.inj (hgc.symm.trans hc2)
            subst hcc
            rw [hkeys, hsel]
            unfold logical_keys
            rw [hgc]
            exact selectCols_snd_subset c
  · intro wc wp lim rows r h hr
    unfold query_many at h
    split at h
    · cases h
      cases hr
    · rename_i c hgc
      split at h
      · cases h
        cases hr
      · split at h
        · cases h
        · rename_i q params hb
          have hkeys := runQuery_keys store q params rows r h hr
          obtain ⟨c2, hc2, hsel⟩ := build_ok_selectCols m entity _ _ _ q params hb
          have hcc : c = c2 := Option.some.inj (hgc.symm.trans hc2)
          subst hcc
          rw [hkeys, hsel]
          unfold logical_keys
          rw [hgc]
          exact selectCols_snd_subset c

/-- C9 witness: the query_one half at a concrete store and record. -/
theorem c9_record_keys_logical_witness :
    ([("id", Value.str "PLT-002"), ("name", Value.str "Bob")] : Dict Value).map Prod.fst ⊆
      logical_keys pilotsMapping "pilots" :=
  (c9_record_keys_logical pilotsStore pilotsMapping "pilots").1 "PLT-002" "id"
    [("id", Value.str "PLT-002"), ("name", Value.str "Bob")] (by decide)

/-- C10: for an entity with a truthy config and source table, (1) the
builder fails with NoMappedColumns exactly when no column pair has a
non-empty physical expression — the `columns` mapping being non-empty does
not save it; (2) on success, pairs with an empty physical expression are
silently omitted from the select list; (3) describe_entity nevertheless
lists every logical column, including the omitted ones; (4) a logical
column with an empty physical expression (the keys being duplicate-free)
never appears as a key of any returned record. -/
theorem c10_blank_physical_columns (m : Mapping) (entity : String) (c : EntityConfig)
    (store : Store) (wc : Option Cond) (wp : Option (Dict Value)) (lim : Option Int)
    (hc : get_entity_config m entity = some c)
    (hst : (c.source_table.getD "") ≠ "") :
    (build_select_struct m entity wc wp lim =
        .error s!"No columns mapped for entity: {entity}" ↔
      (c.columns.getD []).filter (fun kv => kv.2 ≠ "") = []) ∧
    (∀ q p, build_select_struct m entity wc wp lim = .ok (q, p) →
      q.selectCols = ((c.columns.getD []).filter fun kv => kv.2 ≠ "").map
        fun kv => (kv.2, kv.1)) ∧
    (∀ lg, lg ∈ (c.columns.getD []).map Prod.fst →
      ∃ flds, describe_entity m entity = .ok entity flds c.source_table ∧
        lg ∈ flds.map Prod.fst) ∧
    (∀ q p rows r lg, build_select_struct m entity wc wp lim = .ok (q, p) →
      runQuery store q p = .ok rows → r ∈ rows →
      ((c.columns.getD []).map Prod.fst).Nodup → (lg, "") ∈ (c.columns.getD []) →
      lg ∉ r.map Prod.fst) := by
  have htru : c.truthy = true := truthy_of_source_ne c hst
  have hbuild := build_select_struct_spec m entity c wc wp lim hc htru hst
  refine ⟨?_, ?_, ?_, ?_⟩
  · rw [hbuild]
    by_cases h3 : (c.columns.getD []).filter (fun kv => kv.2 ≠ "") = [] <;>
      simp [h3]
  · intro q p hq
    obtain ⟨c2, hc2, hsel⟩ := build_ok_selectCols m entity wc wp lim q p hq
    have hcc : c = c2 := Option.some.inj (hc.symm.trans hc2)
    subst hcc
    exact hsel
  · intro lg hlg
    refine ⟨(c.columns.getD []).map fun kv =>
      (kv.1, (Dict.get field_descriptions kv.1).getD kv.1), ?_, ?_⟩
    · unfold describe_entity
      rw [hc]
      simp [htru]
    · simp only [List.map_map, Function.comp] at hlg ⊢
      exact hlg
  · intro q p rows r lg hq hrun hr hnd hghost hmem
    have hkeys := runQuery_keys store q p rows r hrun hr
    obtain ⟨c2, hc2, hsel⟩ := build_ok_selectCols m entity wc wp lim q p hq
    have hcc : c = c2 := Option.some.inj (hc.symm.trans hc2)
    subst hcc
    rw [hkeys, hsel] at hmem
    simp only [List.map_map, List.mem_map, Function.comp] at hmem
    obtain ⟨kv, hkv, hEq⟩ := hmem
    obtain ⟨hkvmem, hkvne⟩ := List.mem_filter.mp hkv
    have hkveq : (lg, kv.2) ∈ (c.columns.getD []) := by
      have : (kv.1, kv.2) = kv := rfl
      rw [← this, hEq] at hkvmem
      exact hkvmem
    have := assoc_nodup_val_eq (c.columns.getD []) lg kv.2 "" hnd hkveq hghost
    simp [this] at hkvne

/-- C10 witness: the last conjunct at a concrete mapping whose `ghost`
column has an empty physical expression: `ghost` is absent from the
returned record even though describe_entity lists it. -/
theorem c10_blank_physical_columns_witness :
    ("ghost" : String) ∉
      ([("id", Value.str "A"), ("name", Value.str "N")] : Dict Value).map Prod.fst :=
  (c10_blank_physical_columns mixedMapping "p"
      ⟨some "t", some [("id", "pid"), ("ghost", ""), ("name", "pname")], none⟩
      mixedStore none none none (by decide) (by decide)).2.2.2
    ⟨[("pid", "id"), ("pname", "name")], "t", [], none⟩ []
    [[("id", Value.str "A"), ("name", Value.str "N")]]
    [("id", Value.str "A"), ("name", Value.str "N")] "ghost"
    (by decide) (by decide) (by decide) (by decide) (by decide)

end UAV
